import Mathlib

/-!
Shallow embedding of the SecureHost Control Suite drivers.

Two kernel drivers are embedded:
  src/src/drivers/SecureHostDevice/driver.c  (device access control)
  src/src/drivers/SecureHostWFP/driver.c     (WFP network callout)

Machine integers are modelled as Nat; NTSTATUS codes are their 32-bit
numeric values.  Stateful kernel API calls are modelled by explicit state
passing over record types that hold exactly the fields the code reads or
writes.
-/

namespace SecureHost

/-! ## NTSTATUS values (ntstatus.h numeric values used by the drivers) -/

def STATUS_SUCCESS : Nat := 0x00000000

def STATUS_ACCESS_DENIED : Nat := 0xC0000022

def STATUS_INVALID_DEVICE_REQUEST : Nat := 0xC0000010

/-- NT_SUCCESS(Status) is ((NTSTATUS)(Status) >= 0) on signed 32-bit values,
i.e. the high bit is clear. -/
def NT_SUCCESS (s : Nat) : Bool := decide (s < 0x80000000)

namespace Device

/-! ## SecureHostDevice/driver.c : data model -/

/-- SECUREHOST_DEVICE_TYPE enum (driver.c lines 32-38). -/
inductive DeviceType where
  | Camera
  | Microphone
  | USB
  | Bluetooth
  | Unknown
deriving DecidableEq, Repr

/-- SECUREHOST_DEVICE_POLICY (driver.c lines 43-48).  ProcessName is the
fixed-size WCHAR[256] buffer, modelled as the list of its code units; it is
carried but never read by any decision logic. -/
structure DevicePolicy where
  deviceType : DeviceType
  processId : Nat
  allowed : Bool
  processName : List Nat
deriving DecidableEq, Repr

/-- DRIVER_CONTEXT (driver.c lines 64-68): the policy spin lock (held or
free) and the policy list in insertion order. -/
structure DriverContext where
  policyLock : Bool
  policyList : List DevicePolicy
deriving DecidableEq, Repr

/-- The per-rule test of the scan loop in SecureHostCheckDeviceAccess
(driver.c lines 366-372): class matches, subject matches (0 is the
any-subject sentinel), and the rule is an Allow rule. -/
def qualifies (p : DevicePolicy) (dt : DeviceType) (pid : Nat) : Prop :=
  p.deviceType = dt ∧ (p.processId = 0 ∨ p.processId = pid) ∧ p.allowed = true

instance (p : DevicePolicy) (dt : DeviceType) (pid : Nat) :
    Decidable (qualifies p dt pid) := by
  unfold qualifies; infer_instance

/-- The scan loop body of SecureHostCheckDeviceAccess (driver.c lines
356-374): walk the list in insertion order; on a rule whose class and
subject match, return STATUS_SUCCESS if it is an Allow rule (break),
otherwise keep scanning; reaching the end leaves the initial
STATUS_ACCESS_DENIED. -/
def scanPolicies : List DevicePolicy → DeviceType → Nat → Nat
  | [], _, _ => STATUS_ACCESS_DENIED
  | p :: rest, dt, pid =>
    if p.deviceType = dt ∧ (p.processId = 0 ∨ p.processId = pid) then
      if p.allowed then STATUS_SUCCESS else scanPolicies rest dt pid
    else scanPolicies rest dt pid

/-- SecureHostCheckDeviceAccess (driver.c lines 340-379): acquire the
policy spin lock, scan the list, release the lock, return the status.  The
returned context is the context after the call. -/
def SecureHostCheckDeviceAccess (ctx : DriverContext) (dt : DeviceType)
    (pid : Nat) : Nat × DriverContext :=
  let ctx₁ : DriverContext := { ctx with policyLock := true }
  let status := scanPolicies ctx₁.policyList dt pid
  let ctx₂ : DriverContext := { ctx₁ with policyLock := false }
  (status, ctx₂)

/-! ## IOCTL code (driver.c lines 405-406) -/

/-- CTL_CODE macro from the WDK headers. -/
def CTL_CODE (deviceKind functionCode method access : Nat) : Nat :=
  (deviceKind <<< 16) ||| (access <<< 14) ||| (functionCode <<< 2) ||| method

def FILE_DEVICE_UNKNOWN : Nat := 0x22

def METHOD_BUFFERED : Nat := 0

def FILE_ANY_ACCESS : Nat := 0

def IOCTL_SECUREHOST_CHECK_ACCESS : Nat :=
  CTL_CODE FILE_DEVICE_UNKNOWN 0x800 METHOD_BUFFERED FILE_ANY_ACCESS

/-- SecureHostIoDeviceControl (driver.c lines 280-331).  The first
component is the list of completion statuses passed to WdfRequestComplete
during the call (the code has a single completion at the end); the second
is the driver context after the call. -/
def SecureHostIoDeviceControl (ctx : DriverContext) (dt : DeviceType)
    (pid : Nat) (ioControlCode : Nat) : List Nat × DriverContext :=
  if ioControlCode = IOCTL_SECUREHOST_CHECK_ACCESS then
    let r := SecureHostCheckDeviceAccess ctx dt pid
    let status := if NT_SUCCESS r.1 then r.1 else STATUS_ACCESS_DENIED
    ([status], r.2)
  else
    ([STATUS_INVALID_DEVICE_REQUEST], ctx)

/-! ## Teardown (driver.c lines 246-272) -/

/-- The cleanup loop of SecureHostDriverCleanup: while the list is
non-empty, remove the head and free it.  Returns the list left in the
store paired with the freed entries in the order they were freed. -/
def drainLoop : List DevicePolicy → List DevicePolicy →
    List DevicePolicy × List DevicePolicy
  | [], freed => ([], freed)
  | p :: rest, freed => drainLoop rest (freed ++ [p])

/-- SecureHostDriverCleanup (driver.c lines 246-272): drain the policy
list; the context keeps the (now empty) list, and the freed rules are
returned alongside. -/
def SecureHostDriverCleanup (ctx : DriverContext) :
    DriverContext × List DevicePolicy :=
  let r := drainLoop ctx.policyList []
  ({ ctx with policyList := r.1 }, r.2)

/-! ## Policy insertion (external writer) -/

/-- Modelled from the spec: no insert operation exists in the repository
(policies are written by an external collaborator, spec section 3); spec
section 4.1 specifies insert(rule) as appending the rule at the tail of
the ordered collection. -/
def insertRule (store : List DevicePolicy) (r : DevicePolicy) :
    List DevicePolicy :=
  store ++ [r]

/-- The store state reached by a sequence of inserts starting from the
empty store of DriverEntry (driver.c line 156). -/
def buildStore (inserted : List DevicePolicy) : List DevicePolicy :=
  inserted.foldl insertRule []

lemma foldl_insertRule (inserted : List DevicePolicy)
    (acc : List DevicePolicy) :
    inserted.foldl insertRule acc = acc ++ inserted := by
  induction inserted generalizing acc with
  | nil => simp
  | cons p rest ih => simp [insertRule, ih]

lemma buildStore_eq (inserted : List DevicePolicy) :
    buildStore inserted = inserted := by
  simp [buildStore, foldl_insertRule]

lemma scan_success_iff (l : List DevicePolicy) (dt : DeviceType) (pid : Nat) :
    scanPolicies l dt pid = STATUS_SUCCESS ↔ ∃ r ∈ l, qualifies r dt pid := by
  induction l with
  | nil =>
    simp [scanPolicies, STATUS_ACCESS_DENIED, STATUS_SUCCESS]
  | cons p rest ih =>
    by_cases hm : p.deviceType = dt ∧ (p.processId = 0 ∨ p.processId = pid)
    · by_cases ha : p.allowed
      · simp [scanPolicies, hm, ha, qualifies, hm.1, hm.2]
      · simp only [scanPolicies, if_pos hm, if_neg ha, ih]
        constructor
        · rintro ⟨r, hr, hq⟩; exact ⟨r, List.mem_cons_of_mem _ hr, hq⟩
        · rintro ⟨r, hr, hq⟩
          rcases List.mem_cons.mp hr with rfl | hr
          · exact absurd hq.2.2 (by simpa using ha)
          · exact ⟨r, hr, hq⟩
    · simp only [scanPolicies, if_neg hm, ih]
      constructor
      · rintro ⟨r, hr, hq⟩; exact ⟨r, List.mem_cons_of_mem _ hr, hq⟩
      · rintro ⟨r, hr, hq⟩
        rcases List.mem_cons.mp hr with rfl | hr
        · exact absurd ⟨hq.1, hq.2.1⟩ hm
        · exact ⟨r, hr, hq⟩

lemma scan_result_cases (l : List DevicePolicy) (dt : DeviceType) (pid : Nat) :
    scanPolicies l dt pid = STATUS_SUCCESS ∨
      scanPolicies l dt pid = STATUS_ACCESS_DENIED := by
  induction l with
  | nil => exact Or.inr rfl
  | cons p rest ih =>
    by_cases hm : p.deviceType = dt ∧ (p.processId = 0 ∨ p.processId = pid)
    · by_cases ha : p.allowed
      · exact Or.inl (by simp [scanPolicies, hm, ha])
      · simpa [scanPolicies, hm, ha] using ih
    · simpa [scanPolicies, hm] using ih

/-- A sample Allow-camera rule for any subject. -/
def camAny : DevicePolicy :=
  { deviceType := .Camera, processId := 0, allowed := true, processName := [] }

/-- A sample Deny-camera rule for any subject. -/
def camDeny : DevicePolicy :=
  { deviceType := .Camera, processId := 0, allowed := false, processName := [] }

end Device

end SecureHost

namespace SecureHost.Device

/-- C1: over every store reachable by inserts, the device match lookup
returns STATUS_SUCCESS iff some inserted rule matches the queried class,
matches the subject (0 sentinel or equal pid), and is an Allow rule; a
qualifying head rule terminates the scan at once, a non-qualifying head
rule (in particular a class-and-subject-matching Deny rule) is skipped and
the scan continues, and the lookup only ever returns success or
access-denied. -/
theorem check_access_existential_scan (inserted : List DevicePolicy)
    (dt : DeviceType) (pid : Nat) :
    (scanPolicies (buildStore inserted) dt pid = STATUS_SUCCESS ↔
       ∃ r ∈ inserted, qualifies r dt pid) ∧
    (∀ r rest, qualifies r dt pid →
       scanPolicies (r :: rest) dt pid = STATUS_SUCCESS) ∧
    (∀ r rest, ¬ qualifies r dt pid →
       scanPolicies (r :: rest) dt pid = scanPolicies rest dt pid) ∧
    (scanPolicies (buildStore inserted) dt pid = STATUS_SUCCESS ∨
       scanPolicies (buildStore inserted) dt pid = STATUS_ACCESS_DENIED) := by
  refine ⟨by rw [buildStore_eq]; exact scan_success_iff inserted dt pid, ?_, ?_,
    scan_result_cases _ dt pid⟩
  · intro r rest hq
    simp [scanPolicies, hq.1, hq.2.1, hq.2.2]
  · intro r rest hq
    by_cases hm : r.deviceType = dt ∧ (r.processId = 0 ∨ r.processId = pid)
    · have ha : r.allowed ≠ true := fun h => hq ⟨hm.1, hm.2, h⟩
      simp [scanPolicies, hm, ha]
    · simp [scanPolicies, hm]

/-- Witness for C1 at a concrete store: a Deny rule ahead of an Allow rule
does not stop the scan, and the Allow rule makes the lookup succeed. -/
theorem check_access_existential_scan_witness :
    scanPolicies (buildStore [camDeny, camAny]) DeviceType.Camera 4242 =
      STATUS_SUCCESS :=
  (check_access_existential_scan [camDeny, camAny] DeviceType.Camera 4242).1.mpr
    ⟨camAny, by simp, by decide⟩

/-- C5: the dispatcher recognizes exactly the check-access control code;
that code completes with STATUS_SUCCESS when the matcher allows and with
STATUS_ACCESS_DENIED when it denies; every other code completes with
STATUS_INVALID_DEVICE_REQUEST, which differs from STATUS_ACCESS_DENIED;
and every request receives exactly one completion. -/
theorem io_device_control_dispatch (ctx : DriverContext) (dt : DeviceType)
    (pid : Nat) (code : Nat) :
    (SecureHostIoDeviceControl ctx dt pid code).1.length = 1 ∧
    (code = IOCTL_SECUREHOST_CHECK_ACCESS →
       (scanPolicies ctx.policyList dt pid = STATUS_SUCCESS →
          (SecureHostIoDeviceControl ctx dt pid code).1 = [STATUS_SUCCESS]) ∧
       (scanPolicies ctx.policyList dt pid ≠ STATUS_SUCCESS →
          (SecureHostIoDeviceControl ctx dt pid code).1 =
            [STATUS_ACCESS_DENIED])) ∧
    (code ≠ IOCTL_SECUREHOST_CHECK_ACCESS →
       (SecureHostIoDeviceControl ctx dt pid code).1 =
         [STATUS_INVALID_DEVICE_REQUEST]) ∧
    STATUS_INVALID_DEVICE_REQUEST ≠ STATUS_ACCESS_DENIED := by
  refine ⟨?_, ?_, ?_, by decide⟩
  · by_cases hc : code = IOCTL_SECUREHOST_CHECK_ACCESS <;>
      simp [SecureHostIoDeviceControl, hc, SecureHostCheckDeviceAccess]
  · intro hc
    constructor
    · intro hs
      simp [SecureHostIoDeviceControl, hc, SecureHostCheckDeviceAccess, hs,
        NT_SUCCESS, STATUS_SUCCESS]
    · intro hs
      rcases scan_result_cases ctx.policyList dt pid with h | h
      · exact absurd h hs
      · simp [SecureHostIoDeviceControl, hc, SecureHostCheckDeviceAccess, h,
          NT_SUCCESS, STATUS_ACCESS_DENIED]
  · intro hc
    simp [SecureHostIoDeviceControl, hc]

/-- Witness for C5 at concrete inputs: with an empty store the recognized
code completes access-denied, and an unrecognized code completes with the
unsupported-request status. -/
theorem io_device_control_dispatch_witness :
    (SecureHostIoDeviceControl ⟨false, []⟩ DeviceType.Camera 7
        IOCTL_SECUREHOST_CHECK_ACCESS).1 = [STATUS_ACCESS_DENIED] ∧
    (SecureHostIoDeviceControl ⟨false, []⟩ DeviceType.Camera 7 0).1 =
      [STATUS_INVALID_DEVICE_REQUEST] :=
  ⟨((io_device_control_dispatch ⟨false, []⟩ DeviceType.Camera 7
      IOCTL_SECUREHOST_CHECK_ACCESS).2.1 rfl).2 (by decide),
   (io_device_control_dispatch ⟨false, []⟩ DeviceType.Camera 7 0).2.2.1
      (by decide)⟩

/-- C6: driver cleanup drains the policy store to empty, and the match
lookup on the drained store returns STATUS_ACCESS_DENIED on every query. -/
theorem cleanup_then_deny (ctx : DriverContext) (dt : DeviceType) (pid : Nat) :
    (SecureHostDriverCleanup ctx).1.policyList = [] ∧
    scanPolicies (SecureHostDriverCleanup ctx).1.policyList dt pid =
      STATUS_ACCESS_DENIED := by
  have hdrain : ∀ (l acc : List DevicePolicy), (drainLoop l acc).1 = [] := by
    intro l
    induction l with
    | nil => intro acc; rfl
    | cons p rest ih => intro acc; simpa [drainLoop] using ih (acc ++ [p])
  have h : (SecureHostDriverCleanup ctx).1.policyList = [] := by
    simp [SecureHostDriverCleanup, hdrain]
  exact ⟨h, by rw [h]; rfl⟩

/-- Two device policies that agree on everything except possibly the
ProcessName buffer. -/
def sameExceptName (p q : DevicePolicy) : Prop :=
  p.deviceType = q.deviceType ∧ p.processId = q.processId ∧
    p.allowed = q.allowed

/-- C9: the ProcessName buffers have no influence on the match lookup: two
stores whose rules agree pairwise on everything except ProcessName give
the same lookup result on every query. -/
theorem process_name_no_influence (l₁ l₂ : List DevicePolicy)
    (h : List.Forall₂ sameExceptName l₁ l₂) (dt : DeviceType) (pid : Nat) :
    scanPolicies l₁ dt pid = scanPolicies l₂ dt pid := by
  induction h with
  | nil => rfl
  | cons hpq _ ih =>
    obtain ⟨h1, h2, h3⟩ := hpq
    simp only [scanPolicies, h1, h2, h3, ih]

/-- Witness for C9: the same rule with two different ProcessName buffers
gives the same lookup result. -/
theorem process_name_no_influence_witness :
    scanPolicies [camAny] DeviceType.Camera 9 =
      scanPolicies [{ camAny with processName := [65, 66] }]
        DeviceType.Camera 9 :=
  process_name_no_influence [camAny] [{ camAny with processName := [65, 66] }]
    (by constructor
        · exact ⟨rfl, rfl, rfl⟩
        · constructor)
    DeviceType.Camera 9

/-- C10: the match lookup is a pure read: starting from any context whose
policy lock is free, the whole driver context (policy list included) after
SecureHostCheckDeviceAccess equals the context before it. -/
theorem check_access_pure_read (ctx : DriverContext) (dt : DeviceType)
    (pid : Nat) (h : ctx.policyLock = false) :
    (SecureHostCheckDeviceAccess ctx dt pid).2 = ctx := by
  simp [SecureHostCheckDeviceAccess]
  cases ctx
  simp_all

/-- Witness for C10 at a concrete context. -/
theorem check_access_pure_read_witness :
    (SecureHostCheckDeviceAccess ⟨false, [camAny]⟩ DeviceType.USB 3).2 =
      (⟨false, [camAny]⟩ : DriverContext) :=
  check_access_pure_read ⟨false, [camAny]⟩ DeviceType.USB 3 rfl

end SecureHost.Device

namespace SecureHost.Wfp

/-! ## SecureHostWFP/driver.c : constants (numeric values from the WDK
headers fwpsk.h / fwptypes.h; the claims depend only on these being fixed
bit masks and indices, not on the particular values) -/

def FWP_ACTION_PERMIT : Nat := 0x00001002

def FWP_ACTION_BLOCK : Nat := 0x00001001

def FWPS_RIGHT_ACTION_WRITE : Nat := 0x00000001

def FWPS_FILTER_FLAG_CLEAR_ACTION_RIGHT : Nat := 0x00000001

def FWPS_METADATA_FIELD_PROCESS_ID : Nat := 0x00000020

def FWPS_FIELD_ALE_AUTH_CONNECT_V4_IP_LOCAL_PORT : Nat := 4

def FWPS_FIELD_ALE_AUTH_CONNECT_V4_IP_REMOTE_PORT : Nat := 8

def FWPS_FIELD_ALE_AUTH_CONNECT_V4_DIRECTION : Nat := 10

/-! ## Data model (driver.c lines 61-84) -/

/-- SECUREHOST_POLICY_RULE (driver.c lines 61-69). -/
structure PolicyRule where
  ruleId : Nat
  processId : Nat
  protocol : Nat
  localPort : Nat
  remotePort : Nat
  action : Nat
  enabled : Bool
deriving DecidableEq, Repr

/-- FWPS_INCOMING_VALUES0: the per-layer value array, read at fixed
indices; each entry is the numeric content of the value union. -/
structure IncomingValues where
  incomingValue : Nat → Nat

/-- FWPS_INCOMING_METADATA_VALUES0: the presence bit mask and the
processId field (a UINT64). -/
structure MetadataValues where
  currentMetadataValues : Nat
  processId : Nat

/-- FWPS_CLASSIFY_OUT0: the fields the driver writes (actionType) or
updates (rights). -/
structure ClassifyOut where
  actionType : Nat
  rights : Nat
deriving DecidableEq, Repr

/-- FWPS_IS_METADATA_FIELD_PRESENT macro from fwpsk.h. -/
def FWPS_IS_METADATA_FIELD_PRESENT (meta : MetadataValues)
    (fieldBit : Nat) : Bool :=
  decide (meta.currentMetadataValues &&& fieldBit ≠ 0)

/-- The observable outcome of one classify call: the classify-out record
after the call, plus the four values the call extracted and logged
(driver.c lines 469-498). -/
structure ClassifyResult where
  out : ClassifyOut
  loggedPid : Nat
  loggedLocalPort : Nat
  loggedRemotePort : Nat
  loggedDirection : Nat

/-- SecureHostClassifyFn (driver.c lines 452-506).  The rules parameter
stands for the ambient driver context's rules list (reachable through
WdfGetDriver); the body never consults it, mirroring the source, which
never calls GetDriverContext.  processId is taken from metadata when the
presence bit is set (cast to UINT32), else left at its initializer 0; the
ports and direction are read from the fixed-value array; the action is
set to FWP_ACTION_PERMIT; the write action right is stripped from the
rights mask exactly when the triggering filter's flags request it. -/
def SecureHostClassifyFn (rules : List PolicyRule)
    (inFixedValues : IncomingValues) (inMetaValues : MetadataValues)
    (filterFlags : Nat) (classifyOut : ClassifyOut) : ClassifyResult :=
  let processId : Nat :=
    if FWPS_IS_METADATA_FIELD_PRESENT inMetaValues FWPS_METADATA_FIELD_PROCESS_ID
    then inMetaValues.processId % 2 ^ 32 else 0
  let localPort :=
    inFixedValues.incomingValue FWPS_FIELD_ALE_AUTH_CONNECT_V4_IP_LOCAL_PORT
  let remotePort :=
    inFixedValues.incomingValue FWPS_FIELD_ALE_AUTH_CONNECT_V4_IP_REMOTE_PORT
  let direction :=
    inFixedValues.incomingValue FWPS_FIELD_ALE_AUTH_CONNECT_V4_DIRECTION
  let out₁ : ClassifyOut := { classifyOut with actionType := FWP_ACTION_PERMIT }
  let out₂ : ClassifyOut :=
    if filterFlags &&& FWPS_FILTER_FLAG_CLEAR_ACTION_RIGHT ≠ 0 then
      { out₁ with rights := out₁.rights &&& (0xFFFFFFFF ^^^ FWPS_RIGHT_ACTION_WRITE) }
    else out₁
  { out := out₂, loggedPid := processId, loggedLocalPort := localPort,
    loggedRemotePort := remotePort, loggedDirection := direction }

/-- A concrete fixed-value array for witnesses. -/
def fixed0 : IncomingValues := ⟨fun _ => 0⟩

/-- A concrete metadata record with no fields present. -/
def meta0 : MetadataValues := ⟨0, 5555⟩

lemma mask_testBit_succ (i : Nat) :
    (0xFFFFFFFF ^^^ FWPS_RIGHT_ACTION_WRITE : Nat).testBit (i + 1) =
      decide (i + 1 < 32) := by
  rw [FWPS_RIGHT_ACTION_WRITE, Nat.testBit_xor]
  have h1 : (0xFFFFFFFF : Nat) = 2 ^ 32 - 1 := by norm_num
  have h2 : (0x00000001 : Nat) = 2 ^ 0 := rfl
  rw [h1, Nat.testBit_two_pow_sub_one, h2, Nat.testBit_two_pow]
  simp

lemma mask_testBit_zero :
    (0xFFFFFFFF ^^^ FWPS_RIGHT_ACTION_WRITE : Nat).testBit 0 = false := by
  rw [FWPS_RIGHT_ACTION_WRITE, Nat.testBit_xor]
  norm_num

/-- C2: the classify callback sets the verdict to FWP_ACTION_PERMIT on
every input, and its whole result is independent of the rules stored in
the driver context. -/
theorem classify_always_permit (rules rules' : List PolicyRule)
    (fixed : IncomingValues) (meta : MetadataValues) (flags : Nat)
    (out : ClassifyOut) :
    (SecureHostClassifyFn rules fixed meta flags out).out.actionType =
      FWP_ACTION_PERMIT ∧
    SecureHostClassifyFn rules fixed meta flags out =
      SecureHostClassifyFn rules' fixed meta flags out := by
  refine ⟨?_, rfl⟩
  by_cases hf : flags &&& FWPS_FILTER_FLAG_CLEAR_ACTION_RIGHT ≠ 0 <;>
    simp [SecureHostClassifyFn, hf]

/-- C7: the write-permission bit is cleared from the output rights mask
iff the filter's flags contain the clear-action-right flag; when cleared,
every bit other than the write bit is unchanged, and when the flag is
absent the rights mask is returned untouched. -/
theorem classify_clear_action_right (rules : List PolicyRule)
    (fixed : IncomingValues) (meta : MetadataValues) (flags : Nat)
    (out : ClassifyOut) (h : out.rights < 2 ^ 32) :
    (flags &&& FWPS_FILTER_FLAG_CLEAR_ACTION_RIGHT ≠ 0 →
       (SecureHostClassifyFn rules fixed meta flags out).out.rights.testBit 0 =
         false ∧
       ∀ i, (SecureHostClassifyFn rules fixed meta flags out).out.rights.testBit
              (i + 1) = out.rights.testBit (i + 1)) ∧
    (flags &&& FWPS_FILTER_FLAG_CLEAR_ACTION_RIGHT = 0 →
       (SecureHostClassifyFn rules fixed meta flags out).out.rights =
         out.rights) := by
  constructor
  · intro hf
    have hr : (SecureHostClassifyFn rules fixed meta flags out).out.rights =
        out.rights &&& (0xFFFFFFFF ^^^ FWPS_RIGHT_ACTION_WRITE) := by
      simp [SecureHostClassifyFn, hf]
    constructor
    · rw [hr, Nat.testBit_and, mask_testBit_zero, Bool.and_false]
    · intro i
      rw [hr, Nat.testBit_and, mask_testBit_succ]
      by_cases hi : i + 1 < 32
      · simp [hi]
      · have hb : out.rights.testBit (i + 1) = false :=
          Nat.testBit_lt_two_pow
            (lt_of_lt_of_le h (Nat.pow_le_pow_right (by norm_num) (by omega)))
        simp [hi, hb]
  · intro hf
    simp [SecureHostClassifyFn, hf]

/-- Witness for C7 at concrete inputs: with the flag set the write bit of
rights 3 is cleared; with the flag absent rights 3 is unchanged. -/
theorem classify_clear_action_right_witness :
    (SecureHostClassifyFn [] fixed0 meta0 FWPS_FILTER_FLAG_CLEAR_ACTION_RIGHT
        ⟨0, 3⟩).out.rights.testBit 0 = false ∧
    (SecureHostClassifyFn [] fixed0 meta0 0 ⟨0, 3⟩).out.rights = 3 :=
  ⟨((classify_clear_action_right [] fixed0 meta0
      FWPS_FILTER_FLAG_CLEAR_ACTION_RIGHT ⟨0, 3⟩ (by norm_num)).1
      (by decide)).1,
   (classify_clear_action_right [] fixed0 meta0 0 ⟨0, 3⟩ (by norm_num)).2
      (by decide)⟩

/-- C8: when the metadata presence mask says the process-id field is
absent, the classify callback uses 0 as the process id and still completes
normally: it extracts the ports and direction from the fixed values and
produces the Permit verdict. -/
theorem classify_pid_absent (rules : List PolicyRule)
    (fixed : IncomingValues) (meta : MetadataValues) (flags : Nat)
    (out : ClassifyOut)
    (h : meta.currentMetadataValues &&& FWPS_METADATA_FIELD_PROCESS_ID = 0) :
    (SecureHostClassifyFn rules fixed meta flags out).loggedPid = 0 ∧
    (SecureHostClassifyFn rules fixed meta flags out).out.actionType =
      FWP_ACTION_PERMIT ∧
    (SecureHostClassifyFn rules fixed meta flags out).loggedLocalPort =
      fixed.incomingValue FWPS_FIELD_ALE_AUTH_CONNECT_V4_IP_LOCAL_PORT ∧
    (SecureHostClassifyFn rules fixed meta flags out).loggedRemotePort =
      fixed.incomingValue FWPS_FIELD_ALE_AUTH_CONNECT_V4_IP_REMOTE_PORT ∧
    (SecureHostClassifyFn rules fixed meta flags out).loggedDirection =
      fixed.incomingValue FWPS_FIELD_ALE_AUTH_CONNECT_V4_DIRECTION := by
  refine ⟨?_, ?_, rfl, rfl, rfl⟩
  · simp [SecureHostClassifyFn, FWPS_IS_METADATA_FIELD_PRESENT, h]
  · by_cases hf : flags &&& FWPS_FILTER_FLAG_CLEAR_ACTION_RIGHT ≠ 0 <;>
      simp [SecureHostClassifyFn, hf]

/-- Witness for C8: a metadata record with an empty presence mask yields
process id 0 and the Permit verdict. -/
theorem classify_pid_absent_witness :
    (SecureHostClassifyFn [] fixed0 meta0 0 ⟨0, 0⟩).loggedPid = 0 ∧
    (SecureHostClassifyFn [] fixed0 meta0 0 ⟨0, 0⟩).out.actionType =
      FWP_ACTION_PERMIT :=
  ⟨(classify_pid_absent [] fixed0 meta0 0 ⟨0, 0⟩ (by decide)).1,
   (classify_pid_absent [] fixed0 meta0 0 ⟨0, 0⟩ (by decide)).2.1⟩

/-! ## Hook registry (driver.c lines 254-444)

The WFP host is modelled as an explicit state: which kernel callouts are
registered (by id, in registration order), whether an engine session is
open, whether a transaction is pending, the FWPM objects added inside the
pending transaction and the committed ones, plus a trace of the API calls
issued, so that ordering claims are expressible. -/

/-- One host API call issued by the driver. -/
inductive WfpEvent where
  | engineOpen
  | txBegin
  | calloutRegister (id : Nat)
  | calloutUnregister (id : Nat)
  | subLayerAdd
  | mCalloutAdd
  | txAbort
  | txCommit
  | engineClose
deriving DecidableEq, Repr

/-- The FWPM objects this driver adds inside the transaction. -/
inductive FwpmObj where
  | sublayer
  | mCalloutV4
  | mCalloutV6
deriving DecidableEq, Repr

/-- The WFP host state visible to this driver. -/
structure HostState where
  engineOpen : Bool
  txPending : Bool
  registered : List Nat
  txObjects : List FwpmObj
  committed : List FwpmObj
  trace : List WfpEvent
deriving DecidableEq, Repr

/-- SECUREHOST_DRIVER_CONTEXT fields touched by the hook registry
(driver.c lines 74-84): the engine handle (null or not) and the two
retained callout ids. -/
structure WfpDriverCtx where
  engineHandle : Bool
  calloutIdV4 : Nat
  calloutIdV6 : Nat
deriving DecidableEq, Repr

/-- The zeroed context produced by DriverEntry (driver.c line 187). -/
def ctx0 : WfpDriverCtx := ⟨false, 0, 0⟩

/-- A host with no state owned by this driver. -/
def host0 : HostState := ⟨false, false, [], [], [], []⟩

/-- FwpsCalloutUnregisterById0: the id ceases to denote an active
registration; the call is issued (and traced) whether or not the id was
active — an inactive id makes the host report not-found, which the driver
ignores. -/
def fwpsCalloutUnregisterById (h : HostState) (id : Nat) : HostState :=
  { h with registered := h.registered.filter (fun x => x ≠ id),
           trace := h.trace ++ [.calloutUnregister id] }

/-- FwpmTransactionAbort0: the pending transaction and its objects are
discarded. -/
def fwpmTransactionAbort (h : HostState) : HostState :=
  { h with txPending := false, txObjects := [],
           trace := h.trace ++ [.txAbort] }

/-- FwpmEngineClose0: the session ends; a transaction still pending in the
session is discarded with it. -/
def fwpmEngineClose (h : HostState) : HostState :=
  { h with engineOpen := false, txPending := false, txObjects := [],
           trace := h.trace ++ [.engineClose] }

/-- Outcome oracle for one SecureHostRegisterCallouts call: for each host
API step, none means the step succeeds and some e that it fails with
NTSTATUS error e; idV4 and idV6 are the callout ids the host assigns on
successful registration. -/
structure Oracle where
  engineOpenRes : Option Nat
  txBeginRes : Option Nat
  regV4Res : Option Nat
  regV6Res : Option Nat
  subLayerRes : Option Nat
  mCalloutV4Res : Option Nat
  mCalloutV6Res : Option Nat
  commitRes : Option Nat
  idV4 : Nat
  idV6 : Nat

/-- The error of the first failing step of the call, if any. -/
def firstFailure (o : Oracle) : Option Nat :=
  o.engineOpenRes <|> o.txBeginRes <|> o.regV4Res <|> o.regV6Res <|>
    o.subLayerRes <|> o.mCalloutV4Res <|> o.mCalloutV6Res <|> o.commitRes

/-- SecureHostRegisterCallouts (driver.c lines 254-411), following the
source's control flow step by step: open engine, begin transaction,
register the V4 then the V6 callout, add the sublayer, add the two
management callouts, commit; each failure branch performs exactly the
unwind calls the source performs (unregister the callouts registered so
far, in the order the source lists them, abort the transaction where the
source does, then the common cleanup label closes the engine and nulls
the handle). -/
def SecureHostRegisterCallouts (o : Oracle) (h : HostState)
    (c : WfpDriverCtx) : Except Nat Unit × HostState × WfpDriverCtx :=
  match o.engineOpenRes with
  | some e => (.error e, h, c)
  | none =>
    let h := { h with engineOpen := true, trace := h.trace ++ [.engineOpen] }
    let c := { c with engineHandle := true }
    match o.txBeginRes with
    | some e => (.error e, fwpmEngineClose h, { c with engineHandle := false })
    | none =>
      let h := { h with txPending := true, trace := h.trace ++ [.txBegin] }
      match o.regV4Res with
      | some e =>
        (.error e, fwpmEngineClose (fwpmTransactionAbort h),
          { c with engineHandle := false })
      | none =>
        let h := { h with registered := h.registered ++ [o.idV4],
                          trace := h.trace ++ [.calloutRegister o.idV4] }
        let c := { c with calloutIdV4 := o.idV4 }
        match o.regV6Res with
        | some e =>
          let h := fwpsCalloutUnregisterById h c.calloutIdV4
          (.error e, fwpmEngineClose (fwpmTransactionAbort h),
            { c with engineHandle := false })
        | none =>
          let h := { h with registered := h.registered ++ [o.idV6],
                            trace := h.trace ++ [.calloutRegister o.idV6] }
          let c := { c with calloutIdV6 := o.idV6 }
          match o.subLayerRes with
          | some e =>
            let h := fwpsCalloutUnregisterById h c.calloutIdV4
            let h := fwpsCalloutUnregisterById h c.calloutIdV6
            (.error e, fwpmEngineClose (fwpmTransactionAbort h),
              { c with engineHandle := false })
          | none =>
            let h := { h with txObjects := h.txObjects ++ [.sublayer],
                              trace := h.trace ++ [.subLayerAdd] }
            match o.mCalloutV4Res with
            | some e =>
              let h := fwpsCalloutUnregisterById h c.calloutIdV4
              let h := fwpsCalloutUnregisterById h c.calloutIdV6
              (.error e, fwpmEngineClose (fwpmTransactionAbort h),
                { c with engineHandle := false })
            | none =>
              let h := { h with txObjects := h.txObjects ++ [.mCalloutV4],
                                trace := h.trace ++ [.mCalloutAdd] }
              match o.mCalloutV6Res with
              | some e =>
                let h := fwpsCalloutUnregisterById h c.calloutIdV4
                let h := fwpsCalloutUnregisterById h c.calloutIdV6
                (.error e, fwpmEngineClose (fwpmTransactionAbort h),
                  { c with engineHandle := false })
              | none =>
                let h := { h with txObjects := h.txObjects ++ [.mCalloutV6],
                                  trace := h.trace ++ [.mCalloutAdd] }
                match o.commitRes with
                | some e =>
                  let h := fwpsCalloutUnregisterById h c.calloutIdV4
                  let h := fwpsCalloutUnregisterById h c.calloutIdV6
                  (.error e, fwpmEngineClose h, { c with engineHandle := false })
                | none =>
                  let h := { h with txPending := false,
                                    committed := h.committed ++ h.txObjects,
                                    txObjects := [],
                                    trace := h.trace ++ [.txCommit] }
                  (.ok (), h, c)

/-- SecureHostUnregisterCallouts (driver.c lines 419-444): unregister each
callout whose retained id is nonzero, close the engine if the handle is
non-null and null it, return STATUS_SUCCESS. -/
def SecureHostUnregisterCallouts (h : HostState) (c : WfpDriverCtx) :
    Nat × HostState × WfpDriverCtx :=
  let h := if c.calloutIdV4 ≠ 0 then fwpsCalloutUnregisterById h c.calloutIdV4
           else h
  let h := if c.calloutIdV6 ≠ 0 then fwpsCalloutUnregisterById h c.calloutIdV6
           else h
  if c.engineHandle then
    (STATUS_SUCCESS, fwpmEngineClose h, { c with engineHandle := false })
  else
    (STATUS_SUCCESS, h, c)

/-- The callout ids registered during a trace, in call order. -/
def regSeq : List WfpEvent → List Nat
  | [] => []
  | .calloutRegister id :: t => id :: regSeq t
  | _ :: t => regSeq t

/-- The callout ids unregistered during a trace, in call order. -/
def unregSeq : List WfpEvent → List Nat
  | [] => []
  | .calloutUnregister id :: t => id :: unregSeq t
  | _ :: t => unregSeq t

/-- An oracle whose sublayer-add step fails after both callout
registrations succeeded, with host-assigned ids 1 and 2. -/
def oracleSubLayerFail : Oracle :=
  ⟨none, none, none, none, some 0xC0000001, none, none, none, 1, 2⟩

/-- Counterexample for C3: when the sublayer-add step fails, the two
already-registered callouts are unregistered in registration order (V4
first, then V6), not in reverse order as the claim states. -/
theorem register_unwind_counterexample :
    (SecureHostRegisterCallouts oracleSubLayerFail host0 ctx0).1 =
      Except.error 0xC0000001 ∧
    regSeq (SecureHostRegisterCallouts oracleSubLayerFail host0 ctx0).2.1.trace
      = [1, 2] ∧
    unregSeq (SecureHostRegisterCallouts oracleSubLayerFail host0 ctx0).2.1.trace
      = [1, 2] ∧
    unregSeq (SecureHostRegisterCallouts oracleSubLayerFail host0 ctx0).2.1.trace
      ≠ (regSeq (SecureHostRegisterCallouts oracleSubLayerFail host0
          ctx0).2.1.trace).reverse := by
  refine ⟨rfl, rfl, rfl, ?_⟩
  decide

/-- C3 (amended): if any step of SecureHostRegisterCallouts fails then
every completed step is unwound — each registered callout is unregistered
(in registration order, not reverse), the transaction is discarded, no
FWPM object stays committed, the engine is closed and the context handle
nulled — and the error of the failing step is returned; zero hooks remain
registered. -/
theorem register_callouts_unwind (o : Oracle) (e : Nat) (h' : HostState)
    (c' : WfpDriverCtx)
    (hrun : SecureHostRegisterCallouts o host0 ctx0 =
      (Except.error e, h', c')) :
    h'.registered = [] ∧ h'.engineOpen = false ∧ h'.txPending = false ∧
    h'.txObjects = [] ∧ h'.committed = [] ∧ c'.engineHandle = false ∧
    unregSeq h'.trace = regSeq h'.trace ∧ firstFailure o = some e := by
  obtain ⟨r1, r2, r3, r4, r5, r6, r7, r8, i4, i6⟩ := o
  cases r1 with
  | some e1 =>
    simp only [SecureHostRegisterCallouts, Prod.mk.injEq,
      Except.error.injEq] at hrun
    obtain ⟨he, hh, hc⟩ := hrun
    subst he; subst hh; subst hc
    exact ⟨rfl, rfl, rfl, rfl, rfl, rfl, rfl, rfl⟩
  | none =>
  cases r2 with
  | some e2 =>
    simp only [SecureHostRegisterCallouts, Prod.mk.injEq,
      Except.error.injEq] at hrun
    obtain ⟨he, hh, hc⟩ := hrun
    subst he; subst hh; subst hc
    exact ⟨rfl, rfl, rfl, rfl, rfl, rfl, rfl, rfl⟩
  | none =>
  cases r3 with
  | some e3 =>
    simp only [SecureHostRegisterCallouts, Prod.mk.injEq,
      Except.error.injEq] at hrun
    obtain ⟨he, hh, hc⟩ := hrun
    subst he; subst hh; subst hc
    exact ⟨rfl, rfl, rfl, rfl, rfl, rfl, rfl, rfl⟩
  | none =>
  cases r4 with
  | some e4 =>
    simp only [SecureHostRegisterCallouts, Prod.mk.injEq,
      Except.error.injEq] at hrun
    obtain ⟨he, hh, hc⟩ := hrun
    subst he; subst hh; subst hc
    refine ⟨?_, rfl, rfl, rfl, rfl, rfl, rfl, rfl⟩
    simp [fwpmEngineClose, fwpmTransactionAbort, fwpsCalloutUnregisterById,
      host0]
  | none =>
  cases r5 with
  | some e5 =>
    simp only [SecureHostRegisterCallouts, Prod.mk.injEq,
      Except.error.injEq] at hrun
    obtain ⟨he, hh, hc⟩ := hrun
    subst he; subst hh; subst hc
    refine ⟨?_, rfl, rfl, rfl, rfl, rfl, rfl, rfl⟩
    simp [fwpmEngineClose, fwpmTransactionAbort, fwpsCalloutUnregisterById,
      host0]
  | none =>
  cases r6 with
  | some e6 =>
    simp only [SecureHostRegisterCallouts, Prod.mk.injEq,
      Except.error.injEq] at hrun
    obtain ⟨he, hh, hc⟩ := hrun
    subst he; subst hh; subst hc
    refine ⟨?_, rfl, rfl, rfl, rfl, rfl, rfl, rfl⟩
    simp [fwpmEngineClose, fwpmTransactionAbort, fwpsCalloutUnregisterById,
      host0]
  | none =>
  cases r7 with
  | some e7 =>
    simp only [SecureHostRegisterCallouts, Prod.mk.injEq,
      Except.error.injEq] at hrun
    obtain ⟨he, hh, hc⟩ := hrun
    subst he; subst hh; subst hc
    refine ⟨?_, rfl, rfl, rfl, rfl, rfl, rfl, rfl⟩
    simp [fwpmEngineClose, fwpmTransactionAbort, fwpsCalloutUnregisterById,
      host0]
  | none =>
  cases r8 with
  | some e8 =>
    simp only [SecureHostRegisterCallouts, Prod.mk.injEq,
      Except.error.injEq] at hrun
    obtain ⟨he, hh, hc⟩ := hrun
    subst he; subst hh; subst hc
    refine ⟨?_, rfl, rfl, rfl, rfl, rfl, rfl, rfl⟩
    simp [fwpmEngineClose, fwpsCalloutUnregisterById, host0]
  | none =>
    simp only [SecureHostRegisterCallouts, Prod.mk.injEq] at hrun
    exact absurd hrun.1 (by simp)

/-- An oracle whose V6 callout registration fails with error 7. -/
def oracleV6Fail : Oracle :=
  ⟨none, none, none, some 7, none, none, none, none, 1, 2⟩

/-- Witness for C3 (amended) at a concrete failing oracle: the V6
registration fails; the unwind leaves zero hooks registered and a nulled
engine handle. -/
theorem register_callouts_unwind_witness :
    (SecureHostRegisterCallouts oracleV6Fail host0 ctx0).2.1.registered = [] ∧
    (SecureHostRegisterCallouts oracleV6Fail host0 ctx0).2.2.engineHandle =
      false :=
  ⟨(register_callouts_unwind oracleV6Fail 7
      (SecureHostRegisterCallouts oracleV6Fail host0 ctx0).2.1
      (SecureHostRegisterCallouts oracleV6Fail host0 ctx0).2.2 rfl).1,
   (register_callouts_unwind oracleV6Fail 7
      (SecureHostRegisterCallouts oracleV6Fail host0 ctx0).2.1
      (SecureHostRegisterCallouts oracleV6Fail host0 ctx0).2.2
      rfl).2.2.2.2.2.1⟩

lemma filter_keep_left (X : List Nat) (p q : Nat → Bool) :
    ((X.filter p).filter q).filter p = (X.filter p).filter q := by
  rw [List.filter_eq_self]
  intro a ha
  exact List.of_mem_filter (List.mem_of_mem_filter ha)

lemma filter_keep_right (X : List Nat) (p q : Nat → Bool) :
    ((X.filter p).filter q).filter q = (X.filter p).filter q := by
  rw [List.filter_eq_self]
  intro a ha
  exact List.of_mem_filter ha

lemma filter_self_idem (X : List Nat) (p : Nat → Bool) :
    (X.filter p).filter p = X.filter p := by
  rw [List.filter_eq_self]
  intro a ha
  exact List.of_mem_filter ha

/-- A host and context as left by a successful activation: callouts 1 and
2 registered, the three FWPM objects committed, engine open, ids
retained. -/
def hostActive : HostState :=
  ⟨true, false, [1, 2], [], [.sublayer, .mCalloutV4, .mCalloutV6], []⟩

def ctxActive : WfpDriverCtx := ⟨true, 1, 2⟩

/-- Counterexample for C4: after the first deactivation no registration is
active any more and the retained ids are not zeroed, so the second
deactivation issues FwpsCalloutUnregisterById0 again for ids 1 and 2 —
an unregister of identifiers that no longer denote active registrations,
contradicting the claim that an id is unregistered only while active. -/
theorem deactivate_twice_counterexample :
    (SecureHostUnregisterCallouts hostActive ctxActive).2.1.registered = [] ∧
    (SecureHostUnregisterCallouts hostActive ctxActive).2.2.calloutIdV4 = 1 ∧
    (SecureHostUnregisterCallouts
        (SecureHostUnregisterCallouts hostActive ctxActive).2.1
        (SecureHostUnregisterCallouts hostActive ctxActive).2.2).2.1.trace =
      (SecureHostUnregisterCallouts hostActive ctxActive).2.1.trace ++
        [WfpEvent.calloutUnregister 1, WfpEvent.calloutUnregister 2] := by
  decide

/-- C4 (amended): deactivation returns STATUS_SUCCESS both times and is
idempotent on the host resources — the second call leaves the registered
set, engine session, transaction state and committed objects exactly as
the first call left them, and the context unchanged; however it re-issues
the unregister calls for every nonzero retained id (the guard is id
nonzero, not registration active), which the host rejects harmlessly and
the function ignores. -/
theorem deactivate_idempotent (h : HostState) (c : WfpDriverCtx) :
    (SecureHostUnregisterCallouts h c).1 = STATUS_SUCCESS ∧
    (SecureHostUnregisterCallouts (SecureHostUnregisterCallouts h c).2.1
        (SecureHostUnregisterCallouts h c).2.2).1 = STATUS_SUCCESS ∧
    (SecureHostUnregisterCallouts (SecureHostUnregisterCallouts h c).2.1
        (SecureHostUnregisterCallouts h c).2.2).2.1.registered =
      (SecureHostUnregisterCallouts h c).2.1.registered ∧
    (SecureHostUnregisterCallouts (SecureHostUnregisterCallouts h c).2.1
        (SecureHostUnregisterCallouts h c).2.2).2.1.engineOpen =
      (SecureHostUnregisterCallouts h c).2.1.engineOpen ∧
    (SecureHostUnregisterCallouts (SecureHostUnregisterCallouts h c).2.1
        (SecureHostUnregisterCallouts h c).2.2).2.1.txPending =
      (SecureHostUnregisterCallouts h c).2.1.txPending ∧
    (SecureHostUnregisterCallouts (SecureHostUnregisterCallouts h c).2.1
        (SecureHostUnregisterCallouts h c).2.2).2.1.committed =
      (SecureHostUnregisterCallouts h c).2.1.committed ∧
    (SecureHostUnregisterCallouts (SecureHostUnregisterCallouts h c).2.1
        (SecureHostUnregisterCallouts h c).2.2).2.2 =
      (SecureHostUnregisterCallouts h c).2.2 := by
  obtain ⟨eh, i4, i6⟩ := c
  by_cases h4 : i4 = 0 <;> by_cases h6 : i6 = 0 <;> cases eh <;>
    simp [SecureHostUnregisterCallouts, fwpsCalloutUnregisterById,
      fwpmEngineClose, h4, h6, STATUS_SUCCESS, filter_keep_left,
      filter_keep_right, filter_self_idem]
  all_goals
    apply List.filter_congr
    intro a _
    cases hd4 : decide (a = i4) <;> cases hd6 : decide (a = i6) <;>
      simp [hd4, hd6]

end SecureHost.Wfp
